import Mathlib

/-!
Verification of the resource-access layer of the pyjen library.

The stateful Python class `DataRequester` (src/pyjen/utils/datarequester.py)
is embedded as pure functions over an explicit `CacheState`, with the remote
Jenkins server modelled as a pure response function (`Server`) and all network
activity recorded in an explicit event trace (`NetEvent`).  The caching flag
`ENABLE_CACHING` is passed as an explicit boolean parameter.
-/

namespace PyJen

/-- One network interaction performed by the access layer: an HTTP GET of a
URL, or an HTTP POST of a payload (with an optional content-type header). -/
inductive NetEvent where
  | get (url : String)
  | post (url : String) (payload : String) (contentType : Option String)
deriving DecidableEq

/-- The remote server, modelled as pure response functions: a status code and
body for each GET, and a status code for each POST of a payload to a URL. -/
structure Server where
  getStatus : String → Nat
  getBody : String → String
  postStatus : String → String → Nat

/-- The exception raised by `requests.Response.raise_for_status`, carrying the
offending status code and the request URL. -/
structure HttpError where
  status : Nat
  url : String
deriving DecidableEq

/-- A Python `dict` keyed by URL strings, kept in insertion order. -/
abbrev Cache := List (String × String)

/-- Dictionary membership test (`url in cache`). -/
def cacheMem (c : Cache) (k : String) : Bool :=
  c.any (fun p => p.1 = k)

/-- Dictionary read (`cache[url]`), `none` when the key is absent. -/
def cacheLookup (c : Cache) (k : String) : Option String :=
  (c.find? (fun p => p.1 = k)).map Prod.snd

/-- Dictionary write (`cache[url] = v`): overwrite in place when the key is
present, else append, preserving insertion order as Python dicts do. -/
def cacheInsert (c : Cache) (k v : String) : Cache :=
  if cacheMem c k then c.map (fun p => if p.1 = k then (k, v) else p)
  else c ++ [(k, v)]

/-- The process-wide class-level state of `DataRequester`: the three caches
(`_text_cache`, `_header_cache`, `_configxml_cache`) and the `_needs_flush`
dirty flag. -/
structure CacheState where
  text_cache : Cache
  header_cache : Cache
  configxml_cache : Cache
  needs_flush : Bool
deriving DecidableEq

/-- The state at process start: all caches empty, dirty flag clear. -/
def initialState : CacheState := ⟨[], [], [], false⟩

/-- Result of one operation: its return value or raised exception, the state
it leaves behind, and the trace of network events it performed. -/
structure IOResult (ε α : Type) where
  result : Except ε α
  state : CacheState
  events : List NetEvent

/-- `requests.Response.raise_for_status`: raises an `HTTPError` exactly for
client-error and server-error status codes (400–599); any other status,
including non-200 success and redirect codes, returns normally. -/
def raise_for_status (status : Nat) (url : String) : Except HttpError Unit :=
  if 400 ≤ status ∧ status < 600 then .error ⟨status, url⟩ else .ok ()

/-- `path.lstrip("/\\")`: strip leading forward and back slashes. -/
def lstripSlashes (p : String) : String :=
  String.mk (p.toList.dropWhile (fun c => c = '/' ∨ c = '\\'))

/-- `urljoin(base, rel)` for the URLs this class produces: the constructor
normalizes every base URL to end in a single slash, and every path handed to
`urljoin` has had its leading slashes stripped, so the join is concatenation. -/
def joinUrl (base rel : String) : String := base ++ rel

/-- The `temp_path` computation shared by `get_text` and `post`: the base URL
when no path is given, else the path joined onto it after stripping leading
slashes. -/
def resolveUrl (base : String) (path : Option String) : String :=
  match path with
  | some p => joinUrl base (lstripSlashes p)
  | none => base

/-- `DataRequester._get_raw_text(url)`: serve from `_text_cache` when present;
else GET the URL, raise for an error status (after the `!= 200` logging
guard), populate the cache only when caching is enabled, and return the
body. -/
def get_raw_text (caching : Bool) (srv : Server) (url : String)
    (s : CacheState) : IOResult HttpError String :=
  match cacheLookup s.text_cache url with
  | some v => ⟨.ok v, s, []⟩
  | none =>
    let st := srv.getStatus url
    let body := srv.getBody url
    match (if st ≠ 200 then raise_for_status st url else .ok ()) with
    | .error e => ⟨.error e, s, [.get url]⟩
    | .ok _ =>
      let s' := if caching then
          { s with text_cache := cacheInsert s.text_cache url body }
        else s
      ⟨.ok body, s', [.get url]⟩

/-- `DataRequester.get_text(path)`: join the optional path onto this object's
URL and fetch the raw text. -/
def get_text (caching : Bool) (srv : Server) (baseUrl : String)
    (path : Option String) (s : CacheState) : IOResult HttpError String :=
  get_raw_text caching srv (resolveUrl baseUrl path) s

/-- `DataRequester.post(path, args)`: join the optional path onto the base
URL, POST the payload, and raise for an error status (after the `!= 200`
logging guard).  The POST is issued before any status check, so the event is
recorded in both branches. -/
def post (srv : Server) (baseUrl : String) (path : Option String)
    (payload : String) (contentType : Option String)
    (s : CacheState) : IOResult HttpError Unit :=
  let url := resolveUrl baseUrl path
  let st := srv.postStatus url payload
  match (if st ≠ 200 then raise_for_status st url else .ok ()) with
  | .error e => ⟨.error e, s, [.post url payload contentType]⟩
  | .ok _ => ⟨.ok (), s, [.post url payload contentType]⟩

/-- The `config_xml` property getter: serve from the write-back
`_configxml_cache` when this object's URL has an entry, else
`get_text("/config.xml")`. -/
def config_xml_get (caching : Bool) (srv : Server) (url : String)
    (s : CacheState) : IOResult HttpError String :=
  match cacheLookup s.configxml_cache url with
  | some v => ⟨.ok v, s, []⟩
  | none => get_text caching srv url (some "/config.xml") s

/-- The `config_xml` property setter: with caching enabled, store the new
document in the write-back cache and set the dirty flag; with caching
disabled, POST it immediately to `config.xml` with content-type text/xml. -/
def config_xml_set (caching : Bool) (srv : Server) (url : String)
    (new_xml : String) (s : CacheState) : IOResult HttpError Unit :=
  if caching then
    let s' := { s with
      configxml_cache := cacheInsert s.configxml_cache url new_xml
      needs_flush := true }
    ⟨.ok (), s', []⟩
  else
    post srv url (some "/config.xml") new_xml (some "text/xml") s

/-- `JenkinsFlushFailure`: carries the map from locator to the failing
response (here, its status code) for every entry whose POST failed. -/
structure JenkinsFlushFailure where
  failed_items : List (String × Nat)
deriving DecidableEq

/-- The network trace of the flush loop: one POST per write-back entry, to
`locator + "/config.xml"` with content-type text/xml, in cache order. -/
def flushEvents (s : CacheState) : List NetEvent :=
  s.configxml_cache.map
    (fun ci => NetEvent.post (ci.1 ++ "/config.xml") ci.2 (some "text/xml"))

/-- The `failed_items` map the flush loop builds: every write-back entry whose
POST came back with a non-200 status, keyed by locator. -/
def flushFailedItems (srv : Server) (s : CacheState) : List (String × Nat) :=
  s.configxml_cache.filterMap (fun ci =>
    let st := srv.postStatus (ci.1 ++ "/config.xml") ci.2
    if st ≠ 200 then some (ci.1, st) else none)

/-- `DataRequester.flush()`: return immediately when the dirty flag is clear;
else clear the dirty flag, POST every write-back entry (the loop recorded by
`flushEvents`), collect entries with a non-200 response into `failed_items`
(`flushFailedItems`), and raise `JenkinsFlushFailure` carrying that map when
it is non-empty. -/
def flush (srv : Server) (s : CacheState) : IOResult JenkinsFlushFailure Unit :=
  if s.needs_flush = false then ⟨.ok (), s, []⟩
  else if 0 < (flushFailedItems srv s).length then
    ⟨.error ⟨flushFailedItems srv s⟩, { s with needs_flush := false },
     flushEvents s⟩
  else ⟨.ok (), { s with needs_flush := false }, flushEvents s⟩

/-- The `is_dirty` property: reads the process-wide dirty flag. -/
def is_dirty (s : CacheState) : Bool := s.needs_flush

/-- `DataRequester.clear()`: discard all three caches and reset the dirty
flag. -/
def clear : CacheState := ⟨[], [], [], false⟩

/-! ## The plugin-resolution layer

`pyjen/utils/pluginapi.py` itself is not under `src/` — only its unit tests
(src/unit_tests/test_pluginapi.py) and its callers (src/pyjen/utils/jobxml.py)
are — so `PluginXML`, `create_xml_plugin` and `get_plugin_name` are modelled
from the spec (sections 3, 4.1, 4.2, 4.3 and 6) and checked against the unit
tests.  `JobXML` is embedded from src/pyjen/utils/jobxml.py. -/

/-- An XML element: tag name, attribute list, child elements. -/
inductive XMLElement where
  | mk (tag : String) (attributes : List (String × String))
       (children : List XMLElement)

/-- The element's tag name. -/
def XMLElement.tag : XMLElement → String
  | .mk t _ _ => t

/-- The element's attribute list. -/
def XMLElement.attributes : XMLElement → List (String × String)
  | .mk _ a _ => a

/-- The element's child elements. -/
def XMLElement.children : XMLElement → List XMLElement
  | .mk _ _ c => c

/-- Attribute lookup on an element (`element.get(name)`). -/
def XMLElement.attr (e : XMLElement) (name : String) : Option String :=
  (e.attributes.find? (fun p => p.1 = name)).map Prod.snd

/-- `ElementTree.find(tag)`: the first direct child with the given tag. -/
def XMLElement.findChild (e : XMLElement) (t : String) : Option XMLElement :=
  e.children.find? (fun c => c.tag = t)

/-- Python's `str.split('@')` on the character list of a string: split into
the maximal chunks separated by the separator character. -/
def splitOnCharAux (sep : Char) : List Char → List Char → List String
  | [], acc => [String.mk acc.reverse]
  | c :: rest, acc =>
    if c = sep then String.mk acc.reverse :: splitOnCharAux sep rest []
    else splitOnCharAux sep rest (c :: acc)

/-- Python's `str.split('@')`. -/
def splitOnChar (sep : Char) (s : String) : List String :=
  splitOnCharAux sep s.toList []

/-- Modelled from the spec: `PluginXML.get_module_name` of the missing
`pyjen/utils/pluginapi.py`.  Per spec §4.1/§6 the `plugin` attribute has the
form `name@version` and is split on the `@`; the module name is the part
before it.  Absent when the element declares no `plugin` attribute. -/
def get_module_name (e : XMLElement) : Option String :=
  (e.attr "plugin").map fun s => (splitOnChar '@' s).headD ""

/-- Modelled from the spec: `PluginXML.get_version` of the missing
`pyjen/utils/pluginapi.py`.  The part of the `plugin` attribute after the
`@`; absent when the element declares no `plugin` attribute. -/
def get_version (e : XMLElement) : Option String :=
  (e.attr "plugin").map fun s => (splitOnChar '@' s).getD 1 ""

/-- Modelled from the spec: `PluginXML.get_class_name` of the missing
`pyjen/utils/pluginapi.py`.  Per spec §3/§4.1/§6: the `class` attribute
verbatim when present, else the element's own tag name; always derivable. -/
def get_class_name (e : XMLElement) : String :=
  match e.attr "class" with
  | some c => c
  | none => e.tag

/-- Modelled from the spec: `get_plugin_name` of the missing
`pyjen/utils/pluginapi.py` — the type identifier used in diagnostics for an
element (spec §7: errors carry the unresolved type identifier). -/
def get_plugin_name (e : XMLElement) : String := get_class_name e

/-- A resolved plugin handler: its declared type identifier and the XML
subtree it is bound to. -/
structure Plugin where
  plugin_type : String
  node : XMLElement

/-- Modelled from the spec: `create_xml_plugin` of the missing
`pyjen/utils/pluginapi.py` (spec §4.3).  Derive the element's type
identifier, look it up in the registry (here: the list of supported type
identifier strings), and either instantiate a handler bound to that subtree
or return the no-handler sentinel `none` — never an exception. -/
def create_xml_plugin (registry : List String) (node : XMLElement) :
    Option Plugin :=
  if registry.contains (get_class_name node) then
    some ⟨get_class_name node, node⟩
  else none

/-- `PluginNotSupportedError`: message and the unresolved type identifier. -/
structure PluginNotSupportedError where
  message : String
  plugin_name : String

/-- `JobXML.scm` (src/pyjen/utils/jobxml.py): find the `scm` child of the
job's root element, resolve it, and return the handler; when resolution
returns the no-handler sentinel, raise `PluginNotSupportedError` carrying the
unresolved plugin name.  `none` when the root has no `scm` child (the missing
`create_xml_plugin` source leaves that case unspecified). -/
def JobXML.scm (registry : List String) (root : XMLElement) :
    Option (Except PluginNotSupportedError Plugin) :=
  (root.findChild "scm").map fun node =>
    match create_xml_plugin registry node with
    | some p => .ok p
    | none =>
      .error ⟨"Job XML plugin " ++ get_plugin_name node ++ " not found",
              get_plugin_name node⟩

/-- The loop shared by `JobXML.properties`, `JobXML.publishers` and
`JobXML.builders` (src/pyjen/utils/jobxml.py): resolve each child element,
collect the resolved handlers, and for each element resolving to the
no-handler sentinel record a warning naming the unsupported plugin instead of
raising. -/
def collectPlugins (registry : List String) (label : String) :
    List XMLElement → List Plugin × List String
  | [] => ([], [])
  | n :: rest =>
    let tail := collectPlugins registry label rest
    match create_xml_plugin registry n with
    | some p => (p :: tail.1, tail.2)
    | none =>
      (tail.1, ("Unsupported job " ++ label ++ " plugin: "
                ++ get_plugin_name n) :: tail.2)

/-- `JobXML.properties` (src/pyjen/utils/jobxml.py): iterate the children of
the root's `properties` child, resolving each; unsupported entries are logged
and skipped.  `none` when the root has no `properties` child (the Python
`for node in nodes` would fault on `None`). -/
def JobXML.properties (registry : List String) (root : XMLElement) :
    Option (List Plugin × List String) :=
  (root.findChild "properties").map fun nodes =>
    collectPlugins registry "property" nodes.children

/-! ## The composite (nested view) layer

Embedded from src/pyjen/plugins/nestedview.py.  A view is modelled as a node
carrying its name, its declared plugin type string, and — for container
views — the child listing that `get_api_data()['views']` would return; the
HTTP indirection through the controller is abstracted into the tree. -/

/-- A view in the Jenkins view tree: display name, declared plugin type, and
the child views its listing endpoint reports. -/
inductive ViewNode where
  | mk (name : String) (vtype : String) (children : List ViewNode)

/-- The view's display name. -/
def ViewNode.name : ViewNode → String
  | .mk n _ _ => n

/-- The view's declared plugin type string. -/
def ViewNode.vtype : ViewNode → String
  | .mk _ t _ => t

/-- The child views reported by this view's listing endpoint. -/
def ViewNode.children : ViewNode → List ViewNode
  | .mk _ _ c => c

/-- `NestedView.type` (src/pyjen/plugins/nestedview.py). -/
def nestedViewType : String := "hudson.plugins.nested__view.NestedView"

mutual

/-- `NestedView.find_view(view_name)` (src/pyjen/plugins/nestedview.py):
first scan this view's direct children for an exact name match; only when
none matches, recurse into each direct child of the nested-view type in
listing order, returning the first match found. -/
def find_view : ViewNode → String → Option ViewNode
  | .mk _ _ cs, vn =>
    match cs.find? (fun c => c.name = vn) with
    | some v => some v
    | none => find_view_rec cs vn

/-- The second loop of `find_view`: recurse into each child whose type is the
nested-view type, in order, returning the first sub-view found. -/
def find_view_rec : List ViewNode → String → Option ViewNode
  | [], _ => none
  | c :: rest, vn =>
    if c.vtype = nestedViewType then
      match find_view c vn with
      | some v => some v
      | none => find_view_rec rest vn
    else find_view_rec rest vn

end

/-- `NestedView.has_view(view_name)` (src/pyjen/plugins/nestedview.py): an
exact name match over the direct children only — deliberately not
recursive. -/
def has_view (n : ViewNode) (vn : String) : Bool :=
  n.children.any (fun c => c.name = vn)

mutual

/-- `NestedView.all_views` (src/pyjen/plugins/nestedview.py): the recursively
flattened contents of every nested-view child, followed by this view's own
direct children. -/
def all_views : ViewNode → List ViewNode
  | .mk _ _ cs => all_views_rec cs ++ cs

/-- The loop of `all_views`: concatenate `all_views` of each child of the
nested-view type, in listing order. -/
def all_views_rec : List ViewNode → List ViewNode
  | [] => []
  | c :: rest =>
    (if c.vtype = nestedViewType then all_views c else []) ++ all_views_rec rest

end

mutual

/-- Specification-side description of the tree: the proper descendants of a
node, each listed exactly once (each child, followed by that child's own
proper descendants). -/
def proper_descendants : ViewNode → List ViewNode
  | .mk _ _ cs => proper_descendants_rec cs

/-- Proper descendants of a forest. -/
def proper_descendants_rec : List ViewNode → List ViewNode
  | [] => []
  | c :: rest => c :: (proper_descendants c ++ proper_descendants_rec rest)

end

mutual

/-- Well-formedness of a view tree: only views of the nested-view type have
children in their listing (leaf views list no sub-views). -/
def wellFormed : ViewNode → Bool
  | .mk _ t cs =>
    (if t = nestedViewType then true else cs.isEmpty) && wellFormedForest cs

/-- Well-formedness of a forest. -/
def wellFormedForest : List ViewNode → Bool
  | [] => true
  | c :: rest => wellFormed c && wellFormedForest rest

end

/-! ## Concrete fixtures used by witnesses and concrete claims -/

/-- The type string of a plain list view (src/pyjen/view.py). -/
def listViewType : String := "hudson.model.ListView"

/-- Leaf view `z` of the tree `A(x, B(y, C(z)))`. -/
def leafZ : ViewNode := .mk "z" listViewType []

/-- Container view `C(z)`. -/
def nodeC : ViewNode := .mk "C" nestedViewType [leafZ]

/-- Leaf view `y`. -/
def leafY : ViewNode := .mk "y" listViewType []

/-- Container view `B(y, C(z))`. -/
def nodeB : ViewNode := .mk "B" nestedViewType [leafY, nodeC]

/-- Leaf view `x`. -/
def leafX : ViewNode := .mk "x" listViewType []

/-- Container view `A(x, B(y, C(z)))`. -/
def nodeA : ViewNode := .mk "A" nestedViewType [leafX, nodeB]

/-- A server answering 200 to everything. -/
def serverAll200 : Server := ⟨fun _ => 200, fun _ => "", fun _ _ => 200⟩

/-- A server failing (500) exactly the flush POST of locator `http://j/b`. -/
def serverFailB : Server :=
  ⟨fun _ => 200, fun _ => "",
   fun u _ => if u = "http://j/b/config.xml" then 500 else 200⟩

/-- A server answering 201 (created) to every POST. -/
def server201 : Server := ⟨fun _ => 200, fun _ => "", fun _ _ => 201⟩

/-- A dirty cache state holding three write-back entries. -/
def dirtyState3 : CacheState :=
  ⟨[], [],
   [("http://j/a", "xa"), ("http://j/b", "xb"), ("http://j/c", "xc")], true⟩

/-- An element declaring an external plugin attribute `nested-view@123`
(src/unit_tests/test_pluginapi.py). -/
def elemPlugin : XMLElement := .mk "test" [("plugin", "nested-view@123")] []

/-- An element declaring an explicit class attribute. -/
def elemClass : XMLElement := .mk "test" [("class", "nested-view")] []

/-- An element with neither attribute; its tag is the type identifier. -/
def elemTag : XMLElement := .mk "nested-view" [] []

/-- An `scm` element of a type no registry entry covers. -/
def scmNodeW : XMLElement := .mk "scm" [("class", "unknown.Scm")] []

/-- A job root whose `scm` child has an unsupported type. -/
def scmRootW : XMLElement := .mk "project" [] [scmNodeW]

/-- A one-entry registry for the witness of the plugin-resolution claim. -/
def registryW : List String := ["hudson.scm.SubversionSCM"]

/-! ## Helper lemmas about the cache dictionary -/

theorem cacheLookup_map_overwrite (c : Cache) (k v : String)
    (h : cacheMem c k = true) :
    cacheLookup (c.map (fun p => if p.1 = k then (k, v) else p)) k = some v := by
  induction c with
  | nil => simp [cacheMem] at h
  | cons p rest ih =>
    by_cases hp : p.1 = k
    · simp [cacheLookup, List.find?, hp]
    · have h' : cacheMem rest k = true := by
        simpa [cacheMem, hp] using h
      simpa [cacheLookup, List.find?, hp] using ih h'

theorem cacheLookup_append_new (c : Cache) (k v : String)
    (h : cacheMem c k = false) :
    cacheLookup (c ++ [(k, v)]) k = some v := by
  induction c with
  | nil => simp [cacheLookup, List.find?]
  | cons p rest ih =>
    have hp : ¬(p.1 = k) := by
      intro hk
      simp [cacheMem, hk] at h
    have h' : cacheMem rest k = false := by
      simpa [cacheMem, hp] using h
    simpa [cacheLookup, List.find?, hp] using ih h'

theorem cacheLookup_insert (c : Cache) (k v : String) :
    cacheLookup (cacheInsert c k v) k = some v := by
  by_cases hm : cacheMem c k
  · simpa [cacheInsert, hm] using cacheLookup_map_overwrite c k v hm
  · simpa [cacheInsert, hm] using
      cacheLookup_append_new c k v (by simpa using hm)

/-- After any `flush`, the dirty flag is clear. -/
theorem flush_state_not_dirty (srv : Server) (s : CacheState) :
    (flush srv s).state.needs_flush = false := by
  cases hb : s.needs_flush
  · simp [flush, hb]
  · simp only [flush, hb]
    split
    · simp_all
    · split <;> rfl

/-- `flush` never touches the caches themselves. -/
theorem flush_preserves_caches (srv : Server) (s : CacheState) :
    (flush srv s).state.configxml_cache = s.configxml_cache ∧
    (flush srv s).state.text_cache = s.text_cache ∧
    (flush srv s).state.header_cache = s.header_cache := by
  cases hb : s.needs_flush
  · simp [flush, hb]
  · simp only [flush, hb]
    split
    · simp_all
    · split <;> exact ⟨rfl, rfl, rfl⟩

/-! ## Claim theorems -/

/-- Claim C2: with caching enabled, setting the configuration document for a
locator performs no network activity, and immediately reading it back returns
exactly the written text, again with no network activity. -/
theorem set_config_then_get_config_cached (srv : Server) (s : CacheState)
    (L X : String) :
    (config_xml_set true srv L X s).events = [] ∧
    (config_xml_get true srv L (config_xml_set true srv L X s).state).result
      = .ok X ∧
    (config_xml_get true srv L (config_xml_set true srv L X s).state).events
      = [] := by
  refine ⟨rfl, ?_, ?_⟩ <;>
    simp [config_xml_set, config_xml_get, cacheLookup_insert]

/-- Claim C4: a flush with the dirty flag clear performs no network activity
and leaves the state untouched, and a second flush directly after any flush
is such a no-op — flushing twice equals flushing once. -/
theorem flush_idempotent (srv : Server) (s : CacheState) :
    (s.needs_flush = false → flush srv s = ⟨.ok (), s, []⟩) ∧
    flush srv (flush srv s).state
      = ⟨.ok (), (flush srv s).state, []⟩ := by
  constructor
  · intro h
    simp [flush, h]
  · have ht := flush_state_not_dirty srv s
    set t := (flush srv s).state with hteq
    simp [flush, ht]

/-- Witness for C4 at a concrete clean state and server. -/
theorem flush_idempotent_witness :
    initialState.needs_flush = false ∧
    flush serverAll200 initialState = ⟨.ok (), initialState, []⟩ :=
  ⟨rfl, (flush_idempotent serverAll200 initialState).1 rfl⟩

/-- Claim C1: with three dirty write-back entries of which exactly the second
fails to POST, `flush` still POSTs every entry, raises a flush failure whose
failure map holds exactly the second locator, and leaves the dirty flag
clear. -/
theorem flush_partial_failure (srv : Server) (s : CacheState)
    (L1 L2 L3 X1 X2 X3 : String) (st2 : Nat)
    (hc : s.configxml_cache = [(L1, X1), (L2, X2), (L3, X3)])
    (hd : s.needs_flush = true)
    (h1 : srv.postStatus (L1 ++ "/config.xml") X1 = 200)
    (h2 : srv.postStatus (L2 ++ "/config.xml") X2 = st2)
    (hst2 : st2 ≠ 200)
    (h3 : srv.postStatus (L3 ++ "/config.xml") X3 = 200) :
    flush srv s
      = ⟨.error ⟨[(L2, st2)]⟩, { s with needs_flush := false },
         [.post (L1 ++ "/config.xml") X1 (some "text/xml"),
          .post (L2 ++ "/config.xml") X2 (some "text/xml"),
          .post (L3 ++ "/config.xml") X3 (some "text/xml")]⟩ := by
  simp [flush, flushFailedItems, flushEvents, hd, hc, h1, h2, h3, hst2]

/-- Witness for C1 at a concrete dirty three-entry state and a server failing
only the middle entry. -/
theorem flush_partial_failure_witness :
    dirtyState3.configxml_cache
        = [("http://j/a", "xa"), ("http://j/b", "xb"), ("http://j/c", "xc")] ∧
    dirtyState3.needs_flush = true ∧
    serverFailB.postStatus "http://j/a/config.xml" "xa" = 200 ∧
    serverFailB.postStatus "http://j/b/config.xml" "xb" = 500 ∧
    serverFailB.postStatus "http://j/c/config.xml" "xc" = 200 ∧
    flush serverFailB dirtyState3
      = ⟨.error ⟨[("http://j/b", 500)]⟩,
         { dirtyState3 with needs_flush := false },
         [.post "http://j/a/config.xml" "xa" (some "text/xml"),
          .post "http://j/b/config.xml" "xb" (some "text/xml"),
          .post "http://j/c/config.xml" "xc" (some "text/xml")]⟩ :=
  ⟨rfl, rfl, by decide, by decide, by decide,
   flush_partial_failure serverFailB dirtyState3
     "http://j/a" "http://j/b" "http://j/c" "xa" "xb" "xc" 500
     rfl rfl (by decide) (by decide) (by decide) (by decide)⟩

/-- Claim C10: `flush` clears the process-wide dirty flag up front, so after
a flush that raises because some entry's POST failed, `is_dirty` reports
false while the failed entry still sits in the write-back cache, and an
immediately following `flush` performs no network activity — the failed
entries are never retried. -/
theorem flush_failure_not_retried (srv : Server) (s : CacheState)
    (loc xml : String)
    (hd : s.needs_flush = true)
    (hmem : (loc, xml) ∈ s.configxml_cache)
    (hfail : srv.postStatus (loc ++ "/config.xml") xml ≠ 200) :
    (∃ e, (flush srv s).result = .error e ∧
        (loc, srv.postStatus (loc ++ "/config.xml") xml) ∈ e.failed_items) ∧
    is_dirty (flush srv s).state = false ∧
    (flush srv s).state.configxml_cache = s.configxml_cache ∧
    flush srv (flush srv s).state
      = ⟨.ok (), (flush srv s).state, []⟩ := by
  have hmem' : (loc, srv.postStatus (loc ++ "/config.xml") xml)
      ∈ flushFailedItems srv s := by
    simp only [flushFailedItems]
    refine List.mem_filterMap.mpr ⟨(loc, xml), hmem, ?_⟩
    simp [hfail]
  have hlen : 0 < (flushFailedItems srv s).length :=
    List.length_pos.mpr (List.ne_nil_of_mem hmem')
  refine ⟨⟨⟨flushFailedItems srv s⟩, ?_, hmem'⟩, ?_,
    (flush_preserves_caches srv s).1, ?_⟩
  · simp [flush, hd, hlen]
  · simpa [is_dirty] using flush_state_not_dirty srv s
  · exact (flush_idempotent srv s).2

/-- Witness for C10 at a concrete dirty state and a server failing the
middle entry. -/
theorem flush_failure_not_retried_witness :
    dirtyState3.needs_flush = true ∧
    ("http://j/b", "xb") ∈ dirtyState3.configxml_cache ∧
    serverFailB.postStatus "http://j/b/config.xml" "xb" ≠ 200 ∧
    (is_dirty (flush serverFailB dirtyState3).state = false ∧
      flush serverFailB (flush serverFailB dirtyState3).state
        = ⟨.ok (), (flush serverFailB dirtyState3).state, []⟩) :=
  ⟨rfl, by decide, by decide,
   ((flush_failure_not_retried serverFailB dirtyState3 "http://j/b" "xb"
       rfl (by decide) (by decide)).2.1),
   ((flush_failure_not_retried serverFailB dirtyState3 "http://j/b" "xb"
       rfl (by decide) (by decide)).2.2.2)⟩

/-- Claim C3: with caching disabled, setting the configuration document
immediately POSTs the new text to the locator's `config.xml` with
content-type text/xml, touching no cache and leaving the dirty flag as it
was; a configuration read never modifies the state either, so the caches
stay empty across any sequence of such calls; and on empty caches — the
only states such sequences can reach from process start — every
configuration read issues a fresh GET of `config.xml`. -/
theorem cache_bypass (srv : Server) (s : CacheState) (L X : String) :
    (config_xml_set false srv L X s).state = s ∧
    (config_xml_set false srv L X s).events
      = [.post (L ++ "config.xml") X (some "text/xml")] ∧
    (config_xml_get false srv L s).state = s ∧
    (s.text_cache = [] → s.configxml_cache = [] →
      (config_xml_get false srv L s).events = [.get (L ++ "config.xml")]) := by
  have hres : resolveUrl L (some "/config.xml") = L ++ "config.xml" := rfl
  refine ⟨?_, ?_, ?_, ?_⟩
  · simp only [config_xml_set, Bool.false_eq_true, if_false, post]
    split <;> rfl
  · simp only [config_xml_set, Bool.false_eq_true, if_false, post]
    split <;> simp [hres]
  · simp only [config_xml_get]
    split
    · rfl
    · simp only [get_text, get_raw_text]
      split
      · rfl
      · split <;> rfl
  · intro ht hcfg
    simp only [config_xml_get, cacheLookup, hcfg, List.find?, Option.map,
      get_text, get_raw_text, ht]
    rw [hres]
    split <;> simp

/-- Witness for C3 at the initial (empty) state. -/
theorem cache_bypass_witness :
    initialState.text_cache = [] ∧ initialState.configxml_cache = [] ∧
    (config_xml_get false serverAll200 "http://j/a/" initialState).state
      = initialState ∧
    (config_xml_get false serverAll200 "http://j/a/" initialState).events
      = [.get ("http://j/a/" ++ "config.xml")] :=
  ⟨rfl, rfl,
   (cache_bypass serverAll200 initialState "http://j/a/" "x").2.2.1,
   (cache_bypass serverAll200 initialState "http://j/a/" "x").2.2.2 rfl rfl⟩

/-- Counterexample to claim C8 as stated: a server answering 201 — a
non-success, non-200 status — to a POST does not make `post` raise; the call
returns normally, so a non-200 status can be silently swallowed. -/
theorem post_swallows_non200 :
    server201.postStatus "http://j/a/" "payload" ≠ 200 ∧
    (post server201 "http://j/a/" none "payload" none initialState).result
      = .ok () := by
  constructor
  · decide
  · rfl

/-- Claim C8 (as amended): `post` raises an HTTP error carrying the status
and the target URL exactly when the server answers a client- or server-error
status (400–599); it returns normally on 200 and also on any other non-error
status (for example 201 or 302), because `raise_for_status` only raises for
error statuses.  In every case the POST itself is issued and the state is
untouched. -/
theorem post_raises_iff (srv : Server) (base : String) (path : Option String)
    (payload : String) (ct : Option String) (s : CacheState) :
    ((post srv base path payload ct s).result
        = .error ⟨srv.postStatus (resolveUrl base path) payload,
                  resolveUrl base path⟩
      ↔ 400 ≤ srv.postStatus (resolveUrl base path) payload ∧
          srv.postStatus (resolveUrl base path) payload < 600) ∧
    ((post srv base path payload ct s).result = .ok ()
      ↔ ¬(400 ≤ srv.postStatus (resolveUrl base path) payload ∧
          srv.postStatus (resolveUrl base path) payload < 600)) ∧
    (post srv base path payload ct s).state = s ∧
    (post srv base path payload ct s).events
      = [.post (resolveUrl base path) payload ct] := by
  by_cases hr : 400 ≤ srv.postStatus (resolveUrl base path) payload ∧
      srv.postStatus (resolveUrl base path) payload < 600
  · have h200 : srv.postStatus (resolveUrl base path) payload ≠ 200 := by omega
    simp [post, raise_for_status, h200, hr]
  · by_cases h200 : srv.postStatus (resolveUrl base path) payload = 200
    · simp [post, raise_for_status, h200, hr]
    · simp [post, raise_for_status, h200, hr]

/-- Claim C5: the plugin type identifier of an XML element is derived by
cases — a `plugin` attribute of the form `name@version` is split on the `@`
into module name and version; else a `class` attribute is taken verbatim as
the class name with no module or version; else the element's own tag name is
the class name — and the class-name derivation is total. -/
theorem plugin_type_identifier_derivation (e : XMLElement) :
    (∀ s n v, e.attr "plugin" = some s → splitOnChar '@' s = [n, v] →
      get_module_name e = some n ∧ get_version e = some v) ∧
    (∀ c, e.attr "plugin" = none → e.attr "class" = some c →
      get_class_name e = c ∧ get_module_name e = none ∧
        get_version e = none) ∧
    (e.attr "plugin" = none → e.attr "class" = none →
      get_class_name e = e.tag) := by
  refine ⟨?_, ?_, ?_⟩
  · intro s n v hp hs
    simp [get_module_name, get_version, hp, hs]
  · intro c hp hc
    simp [get_class_name, get_module_name, get_version, hp, hc]
  · intro hp hc
    simp [get_class_name, hp, hc]

/-- Witness for C5 at the three elements of the unit tests: an external
plugin attribute, an explicit class attribute, and a bare tag. -/
theorem plugin_type_identifier_derivation_witness :
    (elemPlugin.attr "plugin" = some "nested-view@123" ∧
      splitOnChar '@' "nested-view@123" = ["nested-view", "123"] ∧
      get_module_name elemPlugin = some "nested-view" ∧
      get_version elemPlugin = some "123") ∧
    (elemClass.attr "plugin" = none ∧ elemClass.attr "class"
        = some "nested-view" ∧
      get_class_name elemClass = "nested-view") ∧
    (elemTag.attr "plugin" = none ∧ elemTag.attr "class" = none ∧
      get_class_name elemTag = "nested-view") :=
  ⟨⟨by decide, by decide,
    ((plugin_type_identifier_derivation elemPlugin).1 "nested-view@123"
      "nested-view" "123" (by decide) (by decide)).1,
    ((plugin_type_identifier_derivation elemPlugin).1 "nested-view@123"
      "nested-view" "123" (by decide) (by decide)).2⟩,
   ⟨by decide, by decide,
    ((plugin_type_identifier_derivation elemClass).2.1 "nested-view"
      (by decide) (by decide)).1⟩,
   ⟨by decide, by decide,
    (plugin_type_identifier_derivation elemTag).2.2 (by decide)
      (by decide)⟩⟩

/-- Helper for C9: dropping an unresolvable element from the plugin
collection loop keeps the resolved handlers unchanged and records a
warning naming the unsupported plugin. -/
theorem collectPlugins_skips_unsupported (registry : List String)
    (node : XMLElement)
    (h : registry.contains (get_class_name node) = false) :
    ∀ (label : String) (pre post : List XMLElement),
      (collectPlugins registry label (pre ++ node :: post)).1
        = (collectPlugins registry label pre).1
          ++ (collectPlugins registry label post).1 ∧
      ("Unsupported job " ++ label ++ " plugin: " ++ get_plugin_name node)
        ∈ (collectPlugins registry label (pre ++ node :: post)).2 := by
  have h' : get_class_name node ∉ registry := by simpa using h
  intro label pre post
  induction pre with
  | nil =>
    simp [collectPlugins, create_xml_plugin, h']
  | cons d rest ih =>
    cases hd : create_xml_plugin registry d <;>
      simp [collectPlugins, hd, ih.1, ih.2]

/-- Claim C9: when resolution finds no registry entry for an element's type
identifier, `create_xml_plugin` returns the no-handler sentinel rather than
raising; the optional call site (`JobXML.properties` and its siblings, via
`collectPlugins`) logs and skips the unsupported element; and the fatal call
site (`JobXML.scm`) converts the sentinel into a `PluginNotSupportedError`
carrying the unresolved type identifier. -/
theorem unsupported_plugin_handling (registry : List String)
    (node : XMLElement)
    (h : registry.contains (get_class_name node) = false) :
    create_xml_plugin registry node = none ∧
    (∀ root, root.findChild "scm" = some node →
      JobXML.scm registry root
        = some (.error ⟨"Job XML plugin " ++ get_plugin_name node
                          ++ " not found",
                        get_plugin_name node⟩)) ∧
    (∀ (label : String) (pre post : List XMLElement),
      (collectPlugins registry label (pre ++ node :: post)).1
        = (collectPlugins registry label pre).1
          ++ (collectPlugins registry label post).1 ∧
      ("Unsupported job " ++ label ++ " plugin: " ++ get_plugin_name node)
        ∈ (collectPlugins registry label (pre ++ node :: post)).2) := by
  have h' : get_class_name node ∉ registry := by simpa using h
  refine ⟨by simp [create_xml_plugin, h'], ?_, ?_⟩
  · intro root hr
    simp [JobXML.scm, hr, create_xml_plugin, h']
  · exact collectPlugins_skips_unsupported registry node h

/-- Witness for C9 at a concrete registry and an unsupported `scm`
element. -/
theorem unsupported_plugin_handling_witness :
    registryW.contains (get_class_name scmNodeW) = false ∧
    create_xml_plugin registryW scmNodeW = none ∧
    scmRootW.findChild "scm" = some scmNodeW ∧
    JobXML.scm registryW scmRootW
      = some (.error ⟨"Job XML plugin " ++ get_plugin_name scmNodeW
                        ++ " not found",
                      get_plugin_name scmNodeW⟩) :=
  ⟨by decide,
   (unsupported_plugin_handling registryW scmNodeW (by decide)).1,
   by simp [XMLElement.findChild, scmRootW, scmNodeW, XMLElement.children,
        XMLElement.tag, List.find?],
   (unsupported_plugin_handling registryW scmNodeW (by decide)).2.1 scmRootW
     (by simp [XMLElement.findChild, scmRootW, scmNodeW, XMLElement.children,
           XMLElement.tag, List.find?])⟩

/-- Claim C6: on the container tree `A(x, B(y, C(z)))`, `find_view` locates
`z` by descending through `B` and then `C`, locates `y` at the level of `B`
(direct children are scanned for an exact match before any recursion, as the
definition of `find_view` does), and `has_view` on `A` does not see `y`,
because membership checking is over direct children only. -/
theorem nested_find_and_has :
    find_view nodeA "z" = some leafZ ∧
    find_view nodeA "y" = some leafY ∧
    has_view nodeA "y" = false := by
  refine ⟨?_, ?_, ?_⟩ <;>
    simp [find_view, find_view_rec, has_view, nodeA, nodeB, nodeC, leafX,
      leafY, leafZ, ViewNode.name, ViewNode.vtype, ViewNode.children,
      listViewType, nestedViewType]

/-- The permutation juggling shared by both cases of the post-order proof:
pulling the head container in front of the flattened contents. -/
theorem perm_step {α : Type} (A R rest pd_g pd_r : List α) (c : α)
    (h1 : List.Perm (R ++ rest) pd_r) (h2 : List.Perm A pd_g) :
    List.Perm ((A ++ R) ++ (c :: rest)) (c :: (pd_g ++ pd_r)) := by
  refine List.Perm.trans List.perm_middle ?_
  refine List.Perm.cons _ ?_
  rw [List.append_assoc]
  exact (h1.append_left _).trans (h2.append_right _)

/-- Helper for C7: over a well-formed forest, the flattening loop of
`all_views` followed by the direct children is a permutation of the proper
descendants — every descendant appears exactly once. -/
theorem all_views_perm_aux : ∀ (N : Nat) (cs : List ViewNode),
    sizeOf cs ≤ N → wellFormedForest cs = true →
    (all_views_rec cs ++ cs).Perm (proper_descendants_rec cs) := by
  intro N
  induction N with
  | zero =>
    intro cs hsz _
    cases cs with
    | nil => simp [all_views_rec, proper_descendants_rec]
    | cons c rest =>
      exfalso
      simp only [List.cons.sizeOf_spec] at hsz
      omega
  | succ N ih =>
    intro cs hsz hw
    cases cs with
    | nil => simp [all_views_rec, proper_descendants_rec]
    | cons c rest =>
      obtain ⟨nm, t, gs⟩ := c
      simp only [List.cons.sizeOf_spec, ViewNode.mk.sizeOf_spec] at hsz
      have hszr : sizeOf rest ≤ N := by omega
      have hszg : sizeOf gs ≤ N := by omega
      have hw' : wellFormed (ViewNode.mk nm t gs) = true ∧
          wellFormedForest rest = true := by
        simpa [wellFormedForest, Bool.and_eq_true] using hw
      have hrest := ih rest hszr hw'.2
      have hunf2 : proper_descendants_rec (ViewNode.mk nm t gs :: rest)
          = ViewNode.mk nm t gs ::
              (proper_descendants_rec gs ++ proper_descendants_rec rest) := by
        simp [proper_descendants_rec, proper_descendants]
      by_cases ht : t = nestedViewType
      · have hwgs : wellFormedForest gs = true := by
          have hh := hw'.1
          simpa [wellFormed, ht] using hh
        have hchild := ih gs hszg hwgs
        have hunf1 : all_views_rec (ViewNode.mk nm t gs :: rest)
            = (all_views_rec gs ++ gs) ++ all_views_rec rest := by
          simp [all_views_rec, all_views, ViewNode.vtype, ht]
        rw [hunf1, hunf2]
        exact perm_step _ _ _ _ _ _ hrest hchild
      · have hgs : gs = [] := by
          have hh := hw'.1
          simp only [wellFormed, ht, Bool.and_eq_true, List.isEmpty_iff,
            if_false] at hh
          tauto
        subst hgs
        have hunf1 : all_views_rec (ViewNode.mk nm t [] :: rest)
            = all_views_rec rest := by
          simp [all_views_rec, ViewNode.vtype, ht]
        have hunf2' : proper_descendants_rec (ViewNode.mk nm t [] :: rest)
            = ViewNode.mk nm t [] :: proper_descendants_rec rest := by
          simp [proper_descendants_rec, proper_descendants]
        rw [hunf1, hunf2']
        exact List.Perm.trans List.perm_middle (List.Perm.cons _ hrest)

/-- Helper for C7: the flattened contents of each container child form a
contiguous segment of the flattening loop's output. -/
theorem all_views_rec_infix : ∀ (cs : List ViewNode) (c : ViewNode),
    c ∈ cs → c.vtype = nestedViewType →
    ∃ l1 l2, all_views_rec cs = l1 ++ (all_views c ++ l2) := by
  intro cs
  induction cs with
  | nil => intro c hc; exact absurd hc (List.not_mem_nil c)
  | cons d rest ih =>
    intro c hc ht
    rcases List.mem_cons.mp hc with hcd | hcr
    · subst hcd
      refine ⟨[], all_views_rec rest, ?_⟩
      simp [all_views_rec, ht]
    · obtain ⟨l1, l2, hl⟩ := ih c hcr ht
      refine ⟨(if d.vtype = nestedViewType then all_views d else []) ++ l1,
        l2, ?_⟩
      simp [all_views_rec, hl, List.append_assoc]

/-- Claim C7: on a well-formed container tree, `all_views` lists every proper
descendant of the root exactly once (it is a permutation of the canonical
descendant enumeration — nothing duplicated, nothing revisited), in the
post-order the code produces: the recursively flattened contents of the
container children come first — each as one contiguous block, so a
container's content precedes the container itself — followed by the level's
own direct children. -/
theorem all_views_postorder (n : ViewNode) (h : wellFormed n = true) :
    (all_views n).Perm (proper_descendants n) ∧
    (∃ pre, all_views n = pre ++ n.children ∧
      ∀ c ∈ n.children, c.vtype = nestedViewType →
        ∃ l1 l2, pre = l1 ++ (all_views c ++ l2)) := by
  obtain ⟨nm, t, cs⟩ := n
  have hwf : wellFormedForest cs = true := by
    simp only [wellFormed, Bool.and_eq_true] at h
    exact h.2
  constructor
  · simpa [all_views, proper_descendants] using
      all_views_perm_aux (sizeOf cs) cs le_rfl hwf
  · refine ⟨all_views_rec cs, by simp [all_views, ViewNode.children], ?_⟩
    intro c hc ht
    exact all_views_rec_infix cs c hc ht

/-- Witness for C7 at the concrete tree `A(x, B(y, C(z)))`. -/
theorem all_views_postorder_witness :
    wellFormed nodeA = true ∧
    (all_views nodeA).Perm (proper_descendants nodeA) :=
  ⟨by simp [wellFormed, wellFormedForest, nodeA, nodeB, nodeC, leafX, leafY,
      leafZ, listViewType, nestedViewType],
   (all_views_postorder nodeA
     (by simp [wellFormed, wellFormedForest, nodeA, nodeB, nodeC, leafX,
        leafY, leafZ, listViewType, nestedViewType])).1⟩

end PyJen
